import Mathlib

/-!
Shallow embedding of `misc/python/materialize/checks/cloudtest_actions.py`
(`ReplaceEnvironmentdStatefulSet`), together with spec-modelled stubs for the
external collaborators (`MzVersion`, `Executor`, the resource set) that live
elsewhere in the repository.
-/

/-- Modelled from the spec: `MzVersion` (from `materialize/util.py`, not under
`src/`) is "an immutable, totally-ordered semantic version value" with numeric
components and an optional pre-release identifier. -/
structure MzVersion where
  major : Nat
  minor : Nat
  patch : Nat
  prerelease : Option String
deriving DecidableEq, Repr

/-- Split a character list on a separator character; always returns at least
one (possibly empty) chunk. -/
def splitOnChar (sep : Char) : List Char → List (List Char)
  | [] => [[]]
  | c :: cs =>
    match splitOnChar sep cs with
    | [] => if c = sep then [[], [c]] else [[c]]
    | h :: t => if c = sep then [] :: h :: t else (c :: h) :: t

/-- Parse a non-empty all-digit character list as a natural number. -/
def parseNatChars (l : List Char) : Option Nat :=
  if l ≠ [] ∧ l.all Char.isDigit then
    some (l.foldl (fun n c => n * 10 + (c.toNat - 48)) 0)
  else none

/-- Re-join chunks with a dash, for the pre-release part of a tag. -/
def joinDash : List (List Char) → List Char
  | [] => []
  | [x] => x
  | x :: xs => x ++ '-' :: joinDash xs

/-- Modelled from the spec: `MzVersion.parse_mz` (from `materialize/util.py`,
not under `src/`) parses an explicit release/pre-release identifier
`MAJOR.MINOR.PATCH[-PRERELEASE]` and "fails with a MalformedVersion condition
if the string does not match the expected version grammar". -/
def parse_mz (s : String) : Option MzVersion :=
  match splitOnChar '.' s.toList with
  | [a, b, c] =>
    match parseNatChars a, parseNatChars b with
    | some major, some minor =>
      match splitOnChar '-' c with
      | [p] => (parseNatChars p).map (fun patch => ⟨major, minor, patch, none⟩)
      | p :: rest =>
        match parseNatChars p with
        | some patch =>
          let pre := joinDash rest
          if pre = [] then none else some ⟨major, minor, patch, some ⟨pre⟩⟩
        | none => none
      | [] => none
    | _, _ => none
  | _ => none

/-- Modelled from the spec: `MzVersion.parse_cargo` (from
`materialize/util.py`, not under `src/`) derives "the Version from the build's
own manifest metadata (the version the test harness itself was built
against)". The ambient build manifest version is passed in explicitly. -/
def parse_cargo (buildManifestVersion : MzVersion) : MzVersion :=
  buildManifestVersion

/-- Modelled from the spec: the runtime kinds of the managed resources in the
Resource Set. `environmentdStatefulSetSubclass` stands for a strict Python
subclass of `EnvironmentdStatefulSet` (a kind that "merely shares a
supertype"); the remaining kinds are unrelated resource types. -/
inductive ResourceKind where
  | environmentdStatefulSet
  | environmentdStatefulSetSubclass
  | service
  | deployment
deriving DecidableEq, Repr

/-- Modelled from the spec: the nominal superclass link between resource
kinds, embedding Python class inheritance as a kind discriminator. -/
def ResourceKind.parent : ResourceKind → Option ResourceKind
  | ResourceKind.environmentdStatefulSetSubclass =>
      some ResourceKind.environmentdStatefulSet
  | _ => none

/-- Kind `a` is compatible with kind `b`: equal to it or a direct subclass.
This is the "is-compatible-with" relation the lookup must NOT use. -/
def isSubkindOf (a b : ResourceKind) : Bool :=
  a == b || ResourceKind.parent a == some b

/-- Modelled from the spec: a managed workload object in the Resource Set,
exposing "a mutable version-tag attribute" and its runtime kind. -/
structure K8sResource where
  kind : ResourceKind
  tag : Option String
  name : String
deriving DecidableEq, Repr

/-- Modelled from the spec: the test-application handle, which "exposes the
live Resource Set (an ordered collection of heterogeneous managed
resources)". -/
structure CloudtestApplication where
  resources : List K8sResource
deriving DecidableEq, Repr

/-- Modelled from the spec: the `Executor` (from
`materialize/checks/executors.py`, not under `src/`) carries
`current_mz_version` and a handle to the test application; its remaining
fields are abstracted as `extra : α`. -/
structure Executor (α : Type) where
  current_mz_version : MzVersion
  app : CloudtestApplication
  extra : α
deriving DecidableEq, Repr

/-- The error conditions `execute` can surface: a malformed explicit tag,
a resource-cardinality violation carrying the observed count (the Python
`assert len(stateful_set) == 1`), and an error raised by the external
`replace()` operation, propagated unchanged. -/
inductive ActionError where
  | malformedVersion (tag : String)
  | resourceCardinalityViolation (count : Nat)
  | replaceFailed (err : String)
deriving DecidableEq, Repr

/-- The exact-runtime-kind test `type(resource) == EnvironmentdStatefulSet`
from the list comprehension in `execute`. -/
def isEnvironmentdStatefulSet (r : K8sResource) : Bool :=
  r.kind == ResourceKind.environmentdStatefulSet

/-- The lookup inside `execute`: filter the Resource Set to exact-kind
matches and assert that exactly one remains
(`assert len(stateful_set) == 1; stateful_set = stateful_set[0]`). -/
def lookupEnvironmentdStatefulSet (resources : List K8sResource) :
    Except ActionError K8sResource :=
  match resources.filter isEnvironmentdStatefulSet with
  | [s] => Except.ok s
  | l => Except.error (ActionError.resourceCardinalityViolation l.length)

/-- The version resolution at the top of `execute`:
`MzVersion.parse_mz(self.new_tag) if self.new_tag else MzVersion.parse_cargo()`.
Python truthiness makes both `None` and the empty string fall through to
`parse_cargo`. -/
def resolveVersion (new_tag : Option String) (buildManifestVersion : MzVersion) :
    Except ActionError MzVersion :=
  match new_tag with
  | some t =>
    if t = "" then Except.ok (parse_cargo buildManifestVersion)
    else
      match parse_mz t with
      | some v => Except.ok v
      | none => Except.error (ActionError.malformedVersion t)
  | none => Except.ok (parse_cargo buildManifestVersion)

/-- The in-place mutation `stateful_set.tag = self.new_tag`: the unique
matching member of the Resource Set gets its tag attribute overwritten with
the raw `new_tag` argument. -/
def setNewTag (new_tag : Option String) (resources : List K8sResource) :
    List K8sResource :=
  resources.map (fun r =>
    if isEnvironmentdStatefulSet r then { r with tag := new_tag } else r)

/-- The Action `ReplaceEnvironmentdStatefulSet`, holding the optional
explicit target-version tag `new_tag`. -/
structure ReplaceEnvironmentdStatefulSet where
  new_tag : Option String
deriving DecidableEq, Repr

/-- `ReplaceEnvironmentdStatefulSet.execute`, step by step as in the source:
resolve the version; look up the unique `EnvironmentdStatefulSet`; set its
tag to the raw `new_tag`; call the external `replace()` (modelled by the
oracle `replaceOutcome`, `none` meaning success and `some err` a raised
error); and only on success record the resolved version in the Executor.
The result pairs the outcome with the final Executor state, because Python
mutations performed before an exception persist. -/
def ReplaceEnvironmentdStatefulSet.execute (a : ReplaceEnvironmentdStatefulSet)
    (buildManifestVersion : MzVersion)
    (replaceOutcome : K8sResource → Option String)
    {α : Type} (e : Executor α) : Except ActionError Unit × Executor α :=
  match resolveVersion a.new_tag buildManifestVersion with
  | Except.error err => (Except.error err, e)
  | Except.ok new_version =>
    match lookupEnvironmentdStatefulSet e.app.resources with
    | Except.error err => (Except.error err, e)
    | Except.ok stateful_set =>
      match replaceOutcome { stateful_set with tag := a.new_tag } with
      | some err =>
        (Except.error (ActionError.replaceFailed err),
         { e with app := { e.app with
             resources := setNewTag a.new_tag e.app.resources } })
      | none =>
        (Except.ok (),
         { e with
             current_mz_version := new_version,
             app := { e.app with
               resources := setNewTag a.new_tag e.app.resources } })

/-- `ReplaceEnvironmentdStatefulSet.join`: the body is `pass` — it returns
immediately, raises nothing, and touches no state. -/
def ReplaceEnvironmentdStatefulSet.join (_a : ReplaceEnvironmentdStatefulSet)
    {α : Type} (e : Executor α) : Executor α :=
  e

/-- Pointwise frame relation for the Resource Set across one `execute` run:
kind and name are preserved, a non-matching resource is untouched, and a
matching resource keeps its tag or has it overwritten with `new_tag`. -/
def tagOnlyFrame (nt : Option String) (r0 r1 : K8sResource) : Prop :=
  r1.kind = r0.kind ∧ r1.name = r0.name ∧
  (isEnvironmentdStatefulSet r0 = false → r1 = r0) ∧
  (isEnvironmentdStatefulSet r0 = true → r1.tag = r0.tag ∨ r1.tag = nt)

/-- Sample build-manifest version `0.11.0-dev` for concrete runs. -/
def buildV : MzVersion := ⟨0, 11, 0, some "dev"⟩

/-- Sample environmentd stateful set resource for concrete runs. -/
def envdResource : K8sResource :=
  ⟨ResourceKind.environmentdStatefulSet, some "v0.9.0", "environmentd"⟩

/-- Sample Executor holding exactly one environmentd stateful set. -/
def sampleExecutor : Executor Unit := ⟨⟨0, 9, 0, none⟩, ⟨[envdResource]⟩, ()⟩

/-- Sample Executor whose Resource Set has no environmentd stateful set. -/
def emptyExecutor : Executor Unit := ⟨⟨0, 9, 0, none⟩, ⟨[]⟩, ()⟩

/-- Replace oracle for runs where the external replace operation succeeds. -/
def replaceOk : K8sResource → Option String := fun _ => none

example : parse_mz "0.10.0" = some ⟨0, 10, 0, none⟩ := by decide
example : parse_mz "0.11.0-dev" = some ⟨0, 11, 0, some "dev"⟩ := by decide
example : parse_mz "not-a-version" = none := by decide

/-! Helper lemmas shared by the claim theorems. -/

/-- Characterization of a successful `execute` run: the version resolved, the
lookup found a unique resource, the replace succeeded, and the final state is
the original Executor with the resolved version recorded and the matched
resource's tag overwritten with the raw `new_tag`. -/
theorem execute_ok_spec (a : ReplaceEnvironmentdStatefulSet) (bv : MzVersion)
    (ro : K8sResource → Option String) {α : Type} (e : Executor α)
    (h : (a.execute bv ro e).1 = Except.ok ()) :
    ∃ v s, resolveVersion a.new_tag bv = Except.ok v ∧
      lookupEnvironmentdStatefulSet e.app.resources = Except.ok s ∧
      ro { s with tag := a.new_tag } = none ∧
      (a.execute bv ro e).2 =
        { e with
            current_mz_version := v,
            app := { e.app with
              resources := setNewTag a.new_tag e.app.resources } } := by
  cases hres : resolveVersion a.new_tag bv with
  | error err => simp [ReplaceEnvironmentdStatefulSet.execute, hres] at h
  | ok v =>
    cases hl : lookupEnvironmentdStatefulSet e.app.resources with
    | error err => simp [ReplaceEnvironmentdStatefulSet.execute, hres, hl] at h
    | ok s =>
      cases hro : ro { s with tag := a.new_tag } with
      | some err =>
        simp [ReplaceEnvironmentdStatefulSet.execute, hres, hl, hro] at h
      | none =>
        refine ⟨v, s, rfl, rfl, hro, ?_⟩
        simp [ReplaceEnvironmentdStatefulSet.execute, hres, hl, hro]

/-- After `setNewTag`, every exact-kind match carries the new tag. -/
theorem setNewTag_matches (nt : Option String) (rs : List K8sResource) :
    ∀ r ∈ setNewTag nt rs, isEnvironmentdStatefulSet r = true → r.tag = nt := by
  intro r hr hm
  simp only [setNewTag, List.mem_map] at hr
  obtain ⟨r0, _, hr0e⟩ := hr
  by_cases h0 : isEnvironmentdStatefulSet r0
  · rw [if_pos h0] at hr0e; rw [← hr0e]
  · rw [if_neg h0] at hr0e
    rw [← hr0e] at hm
    exact absurd hm (by simpa using h0)

/-- The frame relation holds reflexively on an unchanged Resource Set. -/
theorem forall2_tagOnlyFrame_self (nt : Option String) :
    ∀ rs : List K8sResource, List.Forall₂ (tagOnlyFrame nt) rs rs := by
  intro rs
  induction rs with
  | nil => exact List.Forall₂.nil
  | cons r rs ih =>
    exact List.Forall₂.cons ⟨rfl, rfl, fun _ => rfl, fun _ => Or.inl rfl⟩ ih

/-- The frame relation holds between a Resource Set and its `setNewTag`
image. -/
theorem forall2_tagOnlyFrame_setNewTag (nt : Option String) :
    ∀ rs : List K8sResource, List.Forall₂ (tagOnlyFrame nt) rs (setNewTag nt rs) := by
  intro rs
  induction rs with
  | nil => exact List.Forall₂.nil
  | cons r rs ih =>
    refine List.Forall₂.cons ?_ ih
    by_cases h0 : isEnvironmentdStatefulSet r
    · simp only [setNewTag, if_pos h0]
      exact ⟨rfl, rfl, fun hc => absurd h0 (by simp [hc]), fun _ => Or.inr rfl⟩
    · simp only [setNewTag, if_neg h0]
      exact ⟨rfl, rfl, fun _ => rfl, fun _ => Or.inl rfl⟩

/-- C4: an explicit tag that fails the version grammar makes `execute` fail
with the `MalformedVersion` condition before the Resource Set is accessed:
the outcome is the same for every Executor and the Executor is returned
entirely unchanged. -/
theorem c4_malformed_tag_fails_early (t : String) (ht : t ≠ "")
    (hp : parse_mz t = none) (bv : MzVersion)
    (ro : K8sResource → Option String) {α : Type} (e : Executor α) :
    ReplaceEnvironmentdStatefulSet.execute ⟨some t⟩ bv ro e =
      (Except.error (ActionError.malformedVersion t), e) := by
  simp [ReplaceEnvironmentdStatefulSet.execute, resolveVersion, ht, hp]

/-- Witness for C4 at the spec's scenario tag `"not-a-version"`. -/
theorem c4_witness :
    "not-a-version" ≠ "" ∧ parse_mz "not-a-version" = none ∧
    ReplaceEnvironmentdStatefulSet.execute ⟨some "not-a-version"⟩ buildV
        replaceOk sampleExecutor =
      (Except.error (ActionError.malformedVersion "not-a-version"),
       sampleExecutor) :=
  ⟨by decide, by decide,
   c4_malformed_tag_fails_early "not-a-version" (by decide) (by decide)
     buildV replaceOk sampleExecutor⟩

/-- C5: a valid non-empty explicit tag resolves to exactly the Version the
version grammar assigns to that tag (round-trip), for every build-manifest
Version — the explicit tag takes precedence over the build-derived value. -/
theorem c5_explicit_tag_roundtrip (t : String) (v : MzVersion) (ht : t ≠ "")
    (hp : parse_mz t = some v) (bv : MzVersion) :
    resolveVersion (some t) bv = Except.ok v := by
  simp [resolveVersion, ht, hp]

/-- Witness for C5 at the explicit tag `"0.10.0"`. -/
theorem c5_witness :
    "0.10.0" ≠ "" ∧ parse_mz "0.10.0" = some ⟨0, 10, 0, none⟩ ∧
    resolveVersion (some "0.10.0") buildV = Except.ok ⟨0, 10, 0, none⟩ :=
  ⟨by decide, by decide,
   c5_explicit_tag_roundtrip "0.10.0" ⟨0, 10, 0, none⟩ (by decide) (by decide)
     buildV⟩

/-- C6: with the explicit tag absent — and likewise present but empty — the
resolved Version is the build-manifest Version; in particular a build
manifest of `0.11.0-dev` resolves to `0.11.0-dev`. -/
theorem c6_absent_tag_uses_build (bv : MzVersion) :
    resolveVersion none bv = Except.ok (parse_cargo bv) ∧
    resolveVersion (some "") bv = Except.ok (parse_cargo bv) ∧
    parse_cargo bv = bv ∧
    resolveVersion none buildV = Except.ok buildV :=
  ⟨rfl, by simp [resolveVersion], rfl, rfl⟩

/-- C7: the lookup matches on exact runtime kind only: a resource of a
strict subkind of `EnvironmentdStatefulSet` is kind-compatible with the
target but is not a match, and a Resource Set holding only such a resource
fails with the zero-count cardinality violation. -/
theorem c7_exact_kind_match_only (r : K8sResource)
    (h : r.kind = ResourceKind.environmentdStatefulSetSubclass) :
    isSubkindOf r.kind ResourceKind.environmentdStatefulSet = true ∧
    isEnvironmentdStatefulSet r = false ∧
    lookupEnvironmentdStatefulSet [r] =
      Except.error (ActionError.resourceCardinalityViolation 0) := by
  have hne : isEnvironmentdStatefulSet r = false := by
    simp [isEnvironmentdStatefulSet, h]
  refine ⟨?_, hne, ?_⟩
  · simp [isSubkindOf, ResourceKind.parent, h]
  · have hfl : List.filter isEnvironmentdStatefulSet [r] = [] := by
      simp [List.filter, hne]
    simp [lookupEnvironmentdStatefulSet, hfl]

/-- Witness for C7 with a concrete subkind resource. -/
theorem c7_witness :
    isSubkindOf (ResourceKind.environmentdStatefulSetSubclass)
        ResourceKind.environmentdStatefulSet = true ∧
    isEnvironmentdStatefulSet
        ⟨ResourceKind.environmentdStatefulSetSubclass, none, "sub"⟩ = false ∧
    lookupEnvironmentdStatefulSet
        [⟨ResourceKind.environmentdStatefulSetSubclass, none, "sub"⟩] =
      Except.error (ActionError.resourceCardinalityViolation 0) :=
  c7_exact_kind_match_only
    ⟨ResourceKind.environmentdStatefulSetSubclass, none, "sub"⟩ rfl

/-- C1 counterexample: with no explicit tag and a build manifest of
`0.11.0-dev`, `execute` succeeds and records `0.11.0-dev` as the Executor's
current version, yet the stateful set's version tag is set to `none` — it
does not equal the resolved target Version (it names no version at all). -/
theorem c1_counterexample :
    (ReplaceEnvironmentdStatefulSet.execute ⟨none⟩ buildV replaceOk
        sampleExecutor).1 = Except.ok () ∧
    (ReplaceEnvironmentdStatefulSet.execute ⟨none⟩ buildV replaceOk
        sampleExecutor).2.current_mz_version = buildV ∧
    resolveVersion none buildV = Except.ok buildV ∧
    (ReplaceEnvironmentdStatefulSet.execute ⟨none⟩ buildV replaceOk
        sampleExecutor).2.app.resources.map K8sResource.tag = [none] :=
  ⟨rfl, rfl, rfl, rfl⟩

/-- C1 (amended): after a successful `execute`, the Executor's
`current_mz_version` equals the resolved target Version, and the matched
resource's version tag equals the raw `new_tag` argument — the tag string
itself when one was given, and `none` (not the build-derived Version) when
the tag was absent. -/
theorem c1_execute_success_postcondition
    (a : ReplaceEnvironmentdStatefulSet) (bv : MzVersion)
    (ro : K8sResource → Option String) {α : Type} (e : Executor α)
    (v : MzVersion)
    (hres : resolveVersion a.new_tag bv = Except.ok v)
    (hok : (a.execute bv ro e).1 = Except.ok ()) :
    (a.execute bv ro e).2.current_mz_version = v ∧
    ∀ r ∈ (a.execute bv ro e).2.app.resources,
      isEnvironmentdStatefulSet r = true → r.tag = a.new_tag := by
  obtain ⟨v', s, hres', hl, hro, hstate⟩ := execute_ok_spec a bv ro e hok
  have hv : v' = v := by
    rw [hres] at hres'
    exact (Except.ok.inj hres').symm
  constructor
  · rw [hstate]
    exact hv
  · rw [hstate]
    exact setNewTag_matches a.new_tag e.app.resources

/-- Witness for the amended C1 at the explicit tag `"0.10.0"`. -/
theorem c1_witness :
    resolveVersion (some "0.10.0") buildV = Except.ok ⟨0, 10, 0, none⟩ ∧
    (ReplaceEnvironmentdStatefulSet.execute ⟨some "0.10.0"⟩ buildV replaceOk
        sampleExecutor).1 = Except.ok () ∧
    ((ReplaceEnvironmentdStatefulSet.execute ⟨some "0.10.0"⟩ buildV replaceOk
        sampleExecutor).2.current_mz_version = ⟨0, 10, 0, none⟩ ∧
     ∀ r ∈ (ReplaceEnvironmentdStatefulSet.execute ⟨some "0.10.0"⟩ buildV
        replaceOk sampleExecutor).2.app.resources,
       isEnvironmentdStatefulSet r = true → r.tag = some "0.10.0") :=
  ⟨rfl, rfl,
   c1_execute_success_postcondition ⟨some "0.10.0"⟩ buildV replaceOk
     sampleExecutor ⟨0, 10, 0, none⟩ rfl rfl⟩

/-- C2: the lookup returns the unique exact-kind resource when there is
exactly one; when the match count differs from one (and the version already
resolved, so `execute` reaches the lookup), `execute` fails with the
cardinality violation carrying the observed count and returns the Executor
— `current_mz_version` included — entirely unchanged. -/
theorem c2_lookup_cardinality
    (a : ReplaceEnvironmentdStatefulSet) (bv : MzVersion)
    (ro : K8sResource → Option String) {α : Type} (e : Executor α)
    (v : MzVersion) (hres : resolveVersion a.new_tag bv = Except.ok v) :
    (∀ r : K8sResource,
        e.app.resources.filter isEnvironmentdStatefulSet = [r] →
        lookupEnvironmentdStatefulSet e.app.resources = Except.ok r) ∧
    ((e.app.resources.filter isEnvironmentdStatefulSet).length ≠ 1 →
        a.execute bv ro e =
          (Except.error (ActionError.resourceCardinalityViolation
              (e.app.resources.filter isEnvironmentdStatefulSet).length),
           e)) := by
  constructor
  · intro r hr
    simp [lookupEnvironmentdStatefulSet, hr]
  · intro hlen
    have hl : lookupEnvironmentdStatefulSet e.app.resources =
        Except.error (ActionError.resourceCardinalityViolation
          (e.app.resources.filter isEnvironmentdStatefulSet).length) := by
      unfold lookupEnvironmentdStatefulSet
      cases hfl : e.app.resources.filter isEnvironmentdStatefulSet with
      | nil => rfl
      | cons x xs =>
        cases xs with
        | nil =>
          rw [hfl] at hlen
          simp at hlen
        | cons y ys => rfl
    simp [ReplaceEnvironmentdStatefulSet.execute, hres, hl]

/-- Witness for C2 on a Resource Set with zero matching resources. -/
theorem c2_witness :
    resolveVersion none buildV = Except.ok buildV ∧
    ReplaceEnvironmentdStatefulSet.execute ⟨none⟩ buildV replaceOk
        emptyExecutor =
      (Except.error (ActionError.resourceCardinalityViolation 0),
       emptyExecutor) :=
  ⟨rfl, by
    have h := (c2_lookup_cardinality ⟨none⟩ buildV replaceOk emptyExecutor
      buildV rfl).2
    simpa [emptyExecutor] using h (by decide)⟩

/-- C3: when the external replace operation raises an error, `execute`
propagates exactly that error (wrapped as the replace-failure condition,
payload unchanged) and the Executor's `current_mz_version` is not
advanced. -/
theorem c3_replace_error_propagates
    (a : ReplaceEnvironmentdStatefulSet) (bv : MzVersion)
    (ro : K8sResource → Option String) {α : Type} (e : Executor α)
    (v : MzVersion) (s : K8sResource) (err : String)
    (hres : resolveVersion a.new_tag bv = Except.ok v)
    (hl : lookupEnvironmentdStatefulSet e.app.resources = Except.ok s)
    (hro : ro { s with tag := a.new_tag } = some err) :
    (a.execute bv ro e).1 = Except.error (ActionError.replaceFailed err) ∧
    (a.execute bv ro e).2.current_mz_version = e.current_mz_version := by
  constructor <;> simp [ReplaceEnvironmentdStatefulSet.execute, hres, hl, hro]

/-- Witness for C3 with a replace operation that raises `"boom"`. -/
theorem c3_witness :
    resolveVersion (some "0.10.0") buildV = Except.ok ⟨0, 10, 0, none⟩ ∧
    lookupEnvironmentdStatefulSet sampleExecutor.app.resources =
      Except.ok envdResource ∧
    (fun _ : K8sResource => some "boom")
        { envdResource with tag := some "0.10.0" } = some "boom" ∧
    (ReplaceEnvironmentdStatefulSet.execute ⟨some "0.10.0"⟩ buildV
        (fun _ => some "boom") sampleExecutor).1 =
      Except.error (ActionError.replaceFailed "boom") ∧
    (ReplaceEnvironmentdStatefulSet.execute ⟨some "0.10.0"⟩ buildV
        (fun _ => some "boom") sampleExecutor).2.current_mz_version =
      sampleExecutor.current_mz_version :=
  ⟨rfl, rfl, rfl,
   (c3_replace_error_propagates ⟨some "0.10.0"⟩ buildV (fun _ => some "boom")
     sampleExecutor ⟨0, 10, 0, none⟩ envdResource "boom" rfl rfl rfl).1,
   (c3_replace_error_propagates ⟨some "0.10.0"⟩ buildV (fun _ => some "boom")
     sampleExecutor ⟨0, 10, 0, none⟩ envdResource "boom" rfl rfl rfl).2⟩

/-- C8: `join` after a successful `execute` returns immediately with the
Executor — `current_mz_version` and Resource Set included — completely
unchanged; being a total function, it raises nothing. -/
theorem c8_join_noop
    (a : ReplaceEnvironmentdStatefulSet) (bv : MzVersion)
    (ro : K8sResource → Option String) {α : Type} (e : Executor α)
    (hok : (a.execute bv ro e).1 = Except.ok ()) :
    a.join (a.execute bv ro e).2 = (a.execute bv ro e).2 := rfl

/-- Witness for C8 after a concrete successful run. -/
theorem c8_witness :
    (ReplaceEnvironmentdStatefulSet.execute ⟨none⟩ buildV replaceOk
        sampleExecutor).1 = Except.ok () ∧
    ReplaceEnvironmentdStatefulSet.join ⟨none⟩
        (ReplaceEnvironmentdStatefulSet.execute ⟨none⟩ buildV replaceOk
          sampleExecutor).2 =
      (ReplaceEnvironmentdStatefulSet.execute ⟨none⟩ buildV replaceOk
        sampleExecutor).2 :=
  ⟨rfl, c8_join_noop ⟨none⟩ buildV replaceOk sampleExecutor rfl⟩

/-- C9: on every successful run the matched resource's tag attribute holds
exactly the raw `new_tag` constructor argument; in particular with no
explicit tag the resource's tag becomes `none` while the Executor's
`current_mz_version` becomes the build-derived Version. -/
theorem c9_raw_tag_assigned
    (a : ReplaceEnvironmentdStatefulSet) (bv : MzVersion)
    (ro : K8sResource → Option String) {α : Type} (e : Executor α)
    (hok : (a.execute bv ro e).1 = Except.ok ()) :
    (∀ r ∈ (a.execute bv ro e).2.app.resources,
        isEnvironmentdStatefulSet r = true → r.tag = a.new_tag) ∧
    (a.new_tag = none →
        (a.execute bv ro e).2.current_mz_version = parse_cargo bv) := by
  obtain ⟨v, s, hres, hl, hro, hstate⟩ := execute_ok_spec a bv ro e hok
  constructor
  · rw [hstate]
    exact setNewTag_matches a.new_tag e.app.resources
  · intro hnone
    rw [hstate]
    rw [hnone] at hres
    exact (Except.ok.inj hres).symm

/-- Witness for C9 on a run with no explicit tag. -/
theorem c9_witness :
    (ReplaceEnvironmentdStatefulSet.execute ⟨none⟩ buildV replaceOk
        sampleExecutor).1 = Except.ok () ∧
    (∀ r ∈ (ReplaceEnvironmentdStatefulSet.execute ⟨none⟩ buildV replaceOk
        sampleExecutor).2.app.resources,
      isEnvironmentdStatefulSet r = true → r.tag = none) ∧
    (ReplaceEnvironmentdStatefulSet.execute ⟨none⟩ buildV replaceOk
        sampleExecutor).2.current_mz_version = parse_cargo buildV :=
  ⟨rfl,
   (c9_raw_tag_assigned ⟨none⟩ buildV replaceOk sampleExecutor rfl).1,
   (c9_raw_tag_assigned ⟨none⟩ buildV replaceOk sampleExecutor rfl).2 rfl⟩

/-- C10: frame property — on every run of `execute`, successful or failing,
everything in the Executor besides `current_mz_version` and the Resource Set
is unchanged (`extra` is preserved), and the Resource Set changes at most by
overwriting the tag of exact-kind matches: kinds and names are preserved
pointwise and non-matching resources are untouched. -/
theorem c10_execute_frame
    (a : ReplaceEnvironmentdStatefulSet) (bv : MzVersion)
    (ro : K8sResource → Option String) {α : Type} (e : Executor α) :
    (a.execute bv ro e).2.extra = e.extra ∧
    List.Forall₂ (tagOnlyFrame a.new_tag) e.app.resources
      (a.execute bv ro e).2.app.resources := by
  cases hres : resolveVersion a.new_tag bv with
  | error err =>
    have h2 : (a.execute bv ro e).2 = e := by
      simp [ReplaceEnvironmentdStatefulSet.execute, hres]
    rw [h2]
    exact ⟨rfl, forall2_tagOnlyFrame_self a.new_tag e.app.resources⟩
  | ok v =>
    cases hl : lookupEnvironmentdStatefulSet e.app.resources with
    | error err =>
      have h2 : (a.execute bv ro e).2 = e := by
        simp [ReplaceEnvironmentdStatefulSet.execute, hres, hl]
      rw [h2]
      exact ⟨rfl, forall2_tagOnlyFrame_self a.new_tag e.app.resources⟩
    | ok s =>
      cases hro : ro { s with tag := a.new_tag } with
      | some err =>
        have h2 : (a.execute bv ro e).2 =
            { e with app := { e.app with
                resources := setNewTag a.new_tag e.app.resources } } := by
          simp [ReplaceEnvironmentdStatefulSet.execute, hres, hl, hro]
        rw [h2]
        exact ⟨rfl, forall2_tagOnlyFrame_setNewTag a.new_tag e.app.resources⟩
      | none =>
        have h2 : (a.execute bv ro e).2 =
            { e with
                current_mz_version := v,
                app := { e.app with
                  resources := setNewTag a.new_tag e.app.resources } } := by
          simp [ReplaceEnvironmentdStatefulSet.execute, hres, hl, hro]
        rw [h2]
        exact ⟨rfl, forall2_tagOnlyFrame_setNewTag a.new_tag e.app.resources⟩
